import Mathlib

/-!
Verification of the guten-vocab matching and scoring engine.

This file shallowly embeds the scoring core of the repository:
the match scorer and overlap calculator of
`scripts/generate_recommendations.py`, the vocabulary-profile /
mastery / misuse logic of `backend/app/services/student_service.py`,
the class-wide aggregation of `backend/app/services/class_service.py`,
and the recommendation storage pipeline.

Conventions of the embedding:
- Python floats are modelled as exact rationals (ℚ).
- Database tables are lists of records inside a `DB` structure; SQL
  queries become list filters.
- Python dictionaries whose only consumed part is the key set are
  modelled as a key `Finset` plus a value function.
- Python's built-in `hash` on strings is salted per process
  (PYTHONHASHSEED), so it is modelled as an oracle parameter
  `h : String → ℤ` threaded through every function that calls it.
- `datetime.now()` is modelled as an explicit `now : ℕ` parameter.
-/

namespace GutenVocab

/-- Row of the `students` table (`backend/app/models/student.py`). -/
structure Student where
  id : ℕ
  name : String
  actual_reading_level : ℚ
  assigned_grade : ℕ
deriving DecidableEq, Repr

/-- Row of the `vocabulary_words` table (`backend/app/models/vocabulary.py`). -/
structure VocabularyWord where
  id : ℕ
  word : String
  grade_level : ℕ
deriving DecidableEq, Repr

/-- Row of the `student_vocabulary` table (`backend/app/models/vocabulary.py`).
`misuse_examples` is a nullable array column, hence `Option (List String)`;
`dismissed_at` timestamps are modelled as natural-number ticks. -/
structure StudentVocabulary where
  student_id : ℕ
  word_id : ℕ
  usage_count : ℕ
  correct_usage_count : ℕ
  misuse_examples : Option (List String)
  dismissed : Bool
  dismissed_reason : Option String
  dismissed_at : Option ℕ
deriving DecidableEq, Repr

/-- Row of the `books` table (`backend/app/models/book.py`). -/
structure Book where
  id : ℕ
  title : String
  reading_level : Option ℚ
  total_words : ℕ
deriving DecidableEq, Repr

/-- Row of the `book_vocabulary` table (`backend/app/models/book.py`). -/
structure BookVocabulary where
  book_id : ℕ
  word_id : ℕ
  occurrence_count : ℕ
deriving DecidableEq, Repr

/-- Row of the `student_recommendations` table
(`backend/app/models/recommendation.py`). -/
structure StudentRecommendation where
  student_id : ℕ
  book_id : ℕ
  match_score : ℚ
  known_words_percent : ℚ
  new_words_count : ℕ
deriving DecidableEq, Repr

/-- Row of the `class_recommendations` table
(`backend/app/models/recommendation.py`). -/
structure ClassRecommendation where
  book_id : ℕ
  match_score : ℚ
  students_recommended_count : ℕ
deriving DecidableEq, Repr

/-- The database: each table is a list of rows. -/
structure DB where
  students : List Student
  vocabulary_words : List VocabularyWord
  student_vocabulary : List StudentVocabulary
  books : List Book
  book_vocabulary : List BookVocabulary
  student_recommendations : List StudentRecommendation
  class_recommendations : List ClassRecommendation
deriving Repr

/-- A Python `Dict[int, int]` as consumed by the overlap and profile code:
its key set plus a value function. The engine only ever reads the keys. -/
structure PyDict where
  keys : Finset ℕ
  val : ℕ → ℕ

/-- Python's `int(round(x))`: round half to even (banker's rounding). -/
def pyRound (q : ℚ) : ℤ :=
  let f := ⌊q⌋
  let r := q - f
  if r < 1/2 then f
  else if 1/2 < r then f + 1
  else if f % 2 = 0 then f else f + 1

/-- The baseline inclusion decision shared by
`get_student_vocabulary_profile` (scripts/generate_recommendations.py,
lines 103-110) and `_calculate_baseline_words_known`
(backend/app/services/student_service.py, lines 62-67):
`hash(f"(student_id)_(word_id)") % 100 < baseline_percent * 100`.
Since CPython salts string hashes per process, the hash is an oracle
parameter `h`; Python `%` on a positive modulus matches `Int.emod`. -/
def baselineIncluded (h : String → ℤ) (student_id word_id : ℕ)
    (baseline_percent : ℚ) : Bool :=
  ((h (toString student_id ++ "_" ++ toString word_id) % 100 : ℤ) : ℚ)
    < baseline_percent * 100

/- ===========================================================
   scripts/generate_recommendations.py — the match scorer
   =========================================================== -/

/-- `get_book_vocabulary` (generate_recommendations.py lines 120-135):
the word-id → occurrence-count dictionary of a book. -/
def get_book_vocabulary (db : DB) (book_id : ℕ) : PyDict :=
  { keys := ((db.book_vocabulary.filter (fun bv => bv.book_id = book_id)).map
      (fun bv => bv.word_id)).toFinset
    val := fun wid =>
      match db.book_vocabulary.find?
          (fun bv => bv.book_id = book_id ∧ bv.word_id = wid) with
      | some bv => bv.occurrence_count
      | none => 0 }

/-- `calculate_vocabulary_overlap` (generate_recommendations.py lines
138-167): known words = book keys ∩ student keys, new words = book keys
minus student keys, overlap percent = |known| / |book keys| with 0.0 for
an empty book dictionary. -/
def calculate_vocabulary_overlap (student_vocab book_vocab : PyDict) :
    Finset ℕ × Finset ℕ × ℚ :=
  let book_word_ids := book_vocab.keys
  let student_known_word_ids := student_vocab.keys
  let known_words := book_word_ids ∩ student_known_word_ids
  let new_words := book_word_ids \ student_known_word_ids
  let total_vocab_words := book_word_ids.card
  let overlap_percent : ℚ :=
    if total_vocab_words = 0 then 0.0
    else (known_words.card : ℚ) / total_vocab_words
  (known_words, new_words, overlap_percent)

/-- Extremity penalty block of `calculate_match_score`
(generate_recommendations.py lines 199-207), applied to the already
clamped `known_percent`. -/
def extremity_penalty (known_percent : ℚ) : ℚ :=
  if known_percent > 0.85 then (known_percent - 0.85) * 3
  else if known_percent < 0.40 then (0.40 - known_percent) * 3
  else 0

/-- Known-words sub-score of `calculate_match_score`
(generate_recommendations.py lines 209-223), applied to the already
clamped `known_percent`. -/
def known_score (known_percent : ℚ) : ℚ :=
  if 0.50 ≤ known_percent ∧ known_percent ≤ 0.75 then
    1.0 - (|known_percent - 0.625| / 0.125) * 0.15
  else if known_percent < 0.50 then
    0.7 + (known_percent - 0.40) / 0.10 * 0.15
  else
    1.0 - ((known_percent - 0.75) / 0.10) * 0.2

/-- New-words sub-score of `calculate_match_score`
(generate_recommendations.py lines 225-238). -/
def new_words_score (new_words_count : ℕ) : ℚ :=
  if new_words_count ≥ 40 then 1.0
  else if new_words_count ≥ 20 then
    0.85 + ((new_words_count : ℚ) - 20) / 20 * 0.15
  else if new_words_count ≥ 10 then
    0.7 + ((new_words_count : ℚ) - 10) / 10 * 0.15
  else if new_words_count ≥ 5 then
    0.4 + ((new_words_count : ℚ) - 5) / 5 * 0.3
  else (new_words_count : ℚ) / 5 * 0.4

/-- Reading-level sub-score of `calculate_match_score`
(generate_recommendations.py lines 240-246). -/
def reading_level_score (book_reading_level : Option ℚ)
    (student_reading_level : ℚ) : ℚ :=
  match book_reading_level with
  | some brl => max 0 (1 - |brl - student_reading_level| / 2)
  | none => 0.5

/-- `calculate_match_score` (generate_recommendations.py lines 170-255):
clamp the input percentage, combine the three weighted sub-scores,
subtract the extremity penalty, clamp the result to [0, 1]. -/
def calculate_match_score (known_percent : ℚ) (new_words_count : ℕ)
    (book_reading_level : Option ℚ) (student_reading_level : ℚ) : ℚ :=
  max 0 (min 1
    (known_score (max 0.0 (min 1.0 known_percent)) * 0.4
      + new_words_score new_words_count * 0.4
      + reading_level_score book_reading_level student_reading_level * 0.2
      - extremity_penalty (max 0.0 (min 1.0 known_percent))))

/- ===========================================================
   backend/app/services/student_service.py
   =========================================================== -/

/-- Response shape of `get_misused_words`
(`backend/app/schemas/student.py`, `MisusedWordResponse`). Python's
`usage_count - correct_usage_count` is integer subtraction, hence ℤ. -/
structure MisusedWordResponse where
  word_id : ℕ
  word : String
  correct_count : ℕ
  incorrect_count : ℤ
  exampleSentence : Option String
deriving DecidableEq, Repr

/-- `_get_baseline_mastery_percent` (student_service.py lines 21-43):
step function from rounded reading level to baseline percentage, with
0.60 as the fallback for levels outside 5-8. -/
def _get_baseline_mastery_percent (reading_level : ℤ) : ℚ :=
  if reading_level = 5 then 0.40
  else if reading_level = 6 then 0.55
  else if reading_level = 7 then 0.75
  else if reading_level = 8 then 0.85
  else 0.60

/-- `_calculate_baseline_words_known` (student_service.py lines 46-67):
the set of word ids whose salted-hash draw falls below the baseline
percentage. -/
def _calculate_baseline_words_known (h : String → ℤ) (student_id : ℕ)
    (grade_words : List VocabularyWord) (baseline_percent : ℚ) : Finset ℕ :=
  ((grade_words.filter (fun word =>
      baselineIncluded h student_id word.id baseline_percent)).map
    (fun w => w.id)).toFinset

/-- `calculate_vocab_mastery_percent` (student_service.py lines 70-131):
known set = baseline-by-hash words of the assigned grade unioned with the
words used correctly; mastery = |known| / |grade words| × 100, capped at
100; returns 0.0 when the grade has no vocabulary words. -/
def calculate_vocab_mastery_percent (h : String → ℤ) (student : Student)
    (db : DB) : ℚ :=
  let grade_words := db.vocabulary_words.filter
    (fun w => w.grade_level = student.assigned_grade)
  let total_words := grade_words.length
  if total_words = 0 then 0.0
  else
    let reading_level := pyRound student.actual_reading_level
    let baseline_percent := _get_baseline_mastery_percent reading_level
    let student_vocab := db.student_vocabulary.filter (fun sv =>
      sv.student_id = student.id ∧ 0 < sv.correct_usage_count)
    let used_word_ids := (student_vocab.map (fun sv => sv.word_id)).toFinset
    let baseline_words_known :=
      _calculate_baseline_words_known h student.id grade_words baseline_percent
    let all_known_words := baseline_words_known ∪ used_word_ids
    let words_mastered := all_known_words.card
    let mastery_percent := ((words_mastered : ℚ) / total_words) * 100.0
    min 100.0 mastery_percent

/-- `get_missing_words` (student_service.py lines 134-183): the assigned
grade's words whose ids are in neither the baseline-by-hash set nor the
correctly-used set. -/
def get_missing_words (h : String → ℤ) (student : Student) (db : DB) :
    List String :=
  let grade_words := db.vocabulary_words.filter
    (fun w => w.grade_level = student.assigned_grade)
  let reading_level := pyRound student.actual_reading_level
  let baseline_percent := _get_baseline_mastery_percent reading_level
  let student_vocab := db.student_vocabulary.filter (fun sv =>
    sv.student_id = student.id ∧ 0 < sv.correct_usage_count)
  let used_word_ids := (student_vocab.map (fun sv => sv.word_id)).toFinset
  let baseline_words_known :=
    _calculate_baseline_words_known h student.id grade_words baseline_percent
  let all_known_word_ids := baseline_words_known ∪ used_word_ids
  (grade_words.filter (fun word => word.id ∉ all_known_word_ids)).map
    (fun w => w.word)

/-- `get_misused_words` (student_service.py lines 186-221): the student's
non-dismissed records whose misuse-example list is present and non-empty,
mapped to response objects (records whose word id has no row in
`vocabulary_words` are dropped). -/
def get_misused_words (student : Student) (db : DB) :
    List MisusedWordResponse :=
  let student_vocab := db.student_vocabulary.filter (fun sv =>
    sv.student_id = student.id ∧ sv.misuse_examples.isSome
      ∧ sv.dismissed = false)
  student_vocab.filterMap (fun sv =>
    match sv.misuse_examples with
    | some exs =>
      if exs.length > 0 then
        match db.vocabulary_words.find? (fun w => w.id = sv.word_id) with
        | some word => some ⟨sv.word_id, word.word, sv.correct_usage_count,
            (sv.usage_count : ℤ) - (sv.correct_usage_count : ℤ), exs.head?⟩
        | none => none
      else none
    | none => none)

/-- The row filter of `dismiss_vocabulary_issue` (student_service.py
lines 358-361): `student_id == student_id AND word_id == word_id`. -/
def matchesPair (student_id word_id : ℕ) (sv : StudentVocabulary) : Bool :=
  sv.student_id = student_id ∧ sv.word_id = word_id

/-- `dismiss_vocabulary_issue`, update step (student_service.py lines
357-371): mutate the first record matching the (student, word) pair. -/
def dismissUpdateFirst (student_id word_id : ℕ) (reason : String) (now : ℕ) :
    List StudentVocabulary → List StudentVocabulary
  | [] => []
  | sv :: rest =>
    if matchesPair student_id word_id sv then
      { sv with
        dismissed := true
        dismissed_reason := some reason
        dismissed_at := some now } :: rest
    else sv :: dismissUpdateFirst student_id word_id reason now rest

/-- `dismiss_vocabulary_issue` (student_service.py lines 339-374):
returns the timestamp and the updated database on success, `none` and the
unchanged database when no (student, word) record exists. `datetime.now()`
is the explicit `now` parameter. -/
def dismiss_vocabulary_issue (db : DB) (student_id word_id : ℕ)
    (reason : String) (now : ℕ) : Option ℕ × DB :=
  match db.student_vocabulary.find? (matchesPair student_id word_id) with
  | none => (none, db)
  | some _ => (some now,
      { db with
        student_vocabulary :=
          dismissUpdateFirst student_id word_id reason now
            db.student_vocabulary })

/- ===========================================================
   scripts/generate_recommendations.py — pipeline
   =========================================================== -/

/-- `get_student_vocabulary_profile` (generate_recommendations.py lines
39-117): returns an empty dictionary for an unknown student; otherwise
the union of the baseline-by-hash words (0.95 for grades strictly below
the assigned grade, the reading-level step value for the assigned grade,
nothing above it) with the correctly-used words, the latter carrying
their usage counts and baseline-only words carrying weight 1. The
script's literal `current_grade_baseline_percentages.get(reading_level,
0.60)` dictionary is the same mapping as `_get_baseline_mastery_percent`
and is reused here. -/
def get_student_vocabulary_profile (h : String → ℤ) (db : DB)
    (student_id : ℕ) : PyDict :=
  match db.students.find? (fun st => st.id = student_id) with
  | none => ⟨∅, fun _ => 0⟩
  | some student =>
    let used := db.student_vocabulary.filter (fun sv =>
      sv.student_id = student_id ∧ 0 < sv.correct_usage_count)
    let used_keys := (used.map (fun sv => sv.word_id)).toFinset
    let current_grade_baseline :=
      _get_baseline_mastery_percent (pyRound student.actual_reading_level)
    let all_grade_words := db.vocabulary_words.filter
      (fun w => w.grade_level ≤ student.assigned_grade)
    let baseline_keys := ((all_grade_words.filter (fun word =>
      if word.grade_level < student.assigned_grade then
        baselineIncluded h student_id word.id 0.95
      else if word.grade_level = student.assigned_grade then
        baselineIncluded h student_id word.id current_grade_baseline
      else false)).map (fun w => w.id)).toFinset
    ⟨baseline_keys ∪ used_keys,
      fun wid =>
        if wid ∈ used_keys then
          match used.find? (fun sv => sv.word_id = wid) with
          | some sv => sv.correct_usage_count
          | none => 0
        else 1⟩

/-- The per-book tuple `(book, match_score, known_words_percent,
new_words_count)` assembled inside the loop of `match_student_to_books`
(generate_recommendations.py lines 283-312). -/
def book_match_data (h : String → ℤ) (db : DB) (student : Student)
    (book : Book) : ℚ × ℚ × ℕ :=
  let overlap := calculate_vocabulary_overlap
    (get_student_vocabulary_profile h db student.id)
    (get_book_vocabulary db book.id)
  (calculate_match_score overlap.2.2 overlap.2.1.card book.reading_level
      student.actual_reading_level,
    overlap.2.2, overlap.2.1.card)

/-- One entry of the matches list of `match_student_to_books`. -/
def book_match_entry (h : String → ℤ) (db : DB) (student : Student)
    (book : Book) : Book × ℚ × ℚ × ℕ :=
  (book, book_match_data h db student book)

/-- `match_student_to_books` (generate_recommendations.py lines
258-317): score every book with a non-empty vocabulary dictionary (empty
ones are skipped, not scored), then sort by match score descending.
Python's `list.sort` is stable, so a stable insertion sort by `≥` on the
score is the exact counterpart. -/
def match_student_to_books (h : String → ℤ) (db : DB) (student : Student)
    (all_books : List Book) : List (Book × ℚ × ℚ × ℕ) :=
  (all_books.filterMap (fun book =>
    if (get_book_vocabulary db book.id).keys = ∅ then none
    else some (book_match_entry h db student book))).insertionSort
    (fun a b => a.2.1 ≥ b.2.1)

/-- Phase 1, `generate_student_recommendations`
(generate_recommendations.py lines 320-377): for each student with a
non-empty matches list, keep the top 3 matches, keyed by student id. -/
def generate_student_matches (h : String → ℤ) (db : DB) :
    List (ℕ × List (Book × ℚ × ℚ × ℕ)) :=
  db.students.filterMap (fun student =>
    if (match_student_to_books h db student db.books).isEmpty then none
    else some (student.id,
      (match_student_to_books h db student db.books).take 3))

/-- The upsert of one row in `store_student_recommendations`
(generate_recommendations.py lines 412-435): update the first row with
the same (student, book) pair in place, else insert a new row. -/
def upsert_student_rec : List StudentRecommendation →
    StudentRecommendation → List StudentRecommendation
  | [], r => [r]
  | e :: rest, r =>
    if e.student_id = r.student_id ∧ e.book_id = r.book_id then r :: rest
    else e :: upsert_student_rec rest r

/-- The inner loop of `store_student_recommendations`: persist one
student's top-3 list. -/
def store_student_rec_one (sid : ℕ) (acc : List StudentRecommendation)
    (top3 : List (Book × ℚ × ℚ × ℕ)) : List StudentRecommendation :=
  top3.foldl (fun acc2 m =>
    upsert_student_rec acc2 ⟨sid, m.1.id, m.2.1, m.2.2.1, m.2.2.2⟩) acc

/-- Phase 2, `store_student_recommendations`
(generate_recommendations.py lines 384-453): upsert every student's
top-3 rows into the student_recommendations table. The per-student
commit/rollback handling carries no integrity failures in the pure
model. -/
def store_student_recommendations (recs : List StudentRecommendation)
    (all_matches : List (ℕ × List (Book × ℚ × ℚ × ℕ))) :
    List StudentRecommendation :=
  all_matches.foldl (fun acc entry =>
    store_student_rec_one entry.1 acc entry.2) recs

/-- Book-id encounter order of the `book_stats` dictionary built by
`generate_class_recommendations` (generate_recommendations.py lines
614-629): Python dictionaries iterate in insertion order. -/
def class_book_ids (recs : List StudentRecommendation) : List ℕ :=
  recs.foldl (fun acc r =>
    if r.book_id ∈ acc then acc else acc ++ [r.book_id]) []

/-- Number of recommendation rows of one book (`stats["count"]`). -/
def book_rec_count (recs : List StudentRecommendation) (book_id : ℕ) : ℕ :=
  (recs.filter (fun r => r.book_id = book_id)).length

/-- Summed match score of one book (`stats["total_score"]`). -/
def book_total_score (recs : List StudentRecommendation) (book_id : ℕ) :
    ℚ :=
  ((recs.filter (fun r => r.book_id = book_id)).map
    (fun r => r.match_score)).sum

/-- Number of distinct students recommending one book
(`len(stats["students"])`). -/
def book_students_count (recs : List StudentRecommendation)
    (book_id : ℕ) : ℕ :=
  ((recs.filter (fun r => r.book_id = book_id)).map
    (fun r => r.student_id)).toFinset.card

/-- One element of the `book_aggregates` list of
`generate_class_recommendations`. -/
structure BookAggregate where
  book_id : ℕ
  students_recommended_count : ℕ
  average_match_score : ℚ
deriving DecidableEq, Repr

/-- Phase 3, `generate_class_recommendations`
(generate_recommendations.py lines 596-664): aggregate all persisted
student recommendations by book, sort by (students count, average
score) descending — Python's stable `sort` with a tuple key and
`reverse=True` — and keep the top 2. -/
def generate_class_recommendations (recs : List StudentRecommendation) :
    List BookAggregate :=
  (((class_book_ids recs).map (fun bid =>
    (⟨bid, book_students_count recs bid,
      book_total_score recs bid / book_rec_count recs bid⟩ :
      BookAggregate))).insertionSort (fun a b =>
    b.students_recommended_count < a.students_recommended_count
    ∨ (a.students_recommended_count = b.students_recommended_count
      ∧ b.average_match_score ≤ a.average_match_score))).take 2

/-- The upsert of one row in `store_class_recommendations`
(generate_recommendations.py lines 685-706), keyed by book id. -/
def upsert_class_rec : List ClassRecommendation → ClassRecommendation →
    List ClassRecommendation
  | [], r => [r]
  | e :: rest, r =>
    if e.book_id = r.book_id then r :: rest
    else e :: upsert_class_rec rest r

/-- Phase 4, `store_class_recommendations`
(generate_recommendations.py lines 667-721). -/
def store_class_recommendations (crecs : List ClassRecommendation)
    (top_2 : List BookAggregate) : List ClassRecommendation :=
  top_2.foldl (fun acc info =>
    upsert_class_rec acc ⟨info.book_id, info.average_match_score,
      info.students_recommended_count⟩) crecs

/-- `run_recommendation_engine` (generate_recommendations.py lines
724-810): phases 1-4 in order; phase 3 reads the student
recommendations persisted by phase 2. -/
def run_recommendation_engine (h : String → ℤ) (db : DB) : DB :=
  let srecs := store_student_recommendations db.student_recommendations
    (generate_student_matches h db)
  let crecs := store_class_recommendations db.class_recommendations
    (generate_class_recommendations srecs)
  { db with
    student_recommendations := srecs
    class_recommendations := crecs }

/- ===========================================================
   backend/app/services/class_service.py — get_class_stats
   =========================================================== -/

/-- Truthiness test `sv.misuse_examples and len(sv.misuse_examples) > 0`
used by `get_class_stats` (class_service.py line 74). -/
def misuseNonempty (sv : StudentVocabulary) : Bool :=
  match sv.misuse_examples with
  | some exs => exs.length > 0
  | none => false

/-- The per-word missing counter built by `get_class_stats`
(class_service.py lines 62-71): for each student, a word counts as
missing iff its id is not among the student's records with
`correct_usage_count > 0` — the baseline-by-hash set is never consulted
here. This is the map that `get_class_stats` then sorts descending and
truncates to the top 10; the defect relevant to the claims is already
visible in the counter itself. -/
def class_word_missing_count (db : DB) (word_id : ℕ) : ℕ :=
  (db.students.map (fun student =>
    (db.vocabulary_words.filter (fun word =>
      word.id = word_id ∧
        word.id ∉ ((db.student_vocabulary.filter (fun sv =>
          sv.student_id = student.id ∧ 0 < sv.correct_usage_count)).map
          (fun sv => sv.word_id)).toFinset)).length)).sum

/-- The per-word misuse counter built by `get_class_stats`
(class_service.py lines 72-75): a record counts whenever its
misuse-example list is present and non-empty — the `dismissed` flag is
never consulted here. This is the map that `get_class_stats` then sorts
descending and truncates to the top 10. -/
def class_word_misuse_count (db : DB) (word_id : ℕ) : ℕ :=
  (db.students.map (fun student =>
    (db.student_vocabulary.filter (fun sv =>
      sv.student_id = student.id ∧ sv.word_id = word_id ∧
        misuseNonempty sv)).length)).sum

/-- The `total_misuse_count` re-query of `get_class_stats`
(class_service.py lines 96-100): all records of a word whose
misuse-example column is not NULL, regardless of dismissal. -/
def total_misuse_count (db : DB) (word_id : ℕ) : ℕ :=
  (db.student_vocabulary.filter (fun sv =>
    sv.word_id = word_id ∧ sv.misuse_examples.isSome)).length

/- ===========================================================
   Concrete fixtures used by witnesses and counterexamples
   =========================================================== -/

/-- Hash oracle for witnesses: every key hashes to 0. -/
def hashZero : String → ℤ := fun _ => 0

/-- Concrete student for the C8 witness. -/
def studentC8 : Student := ⟨1, "s", 7, 7⟩

/-- Concrete database for the C8 witness: one grade-7 word, no usage. -/
def dbC8 : DB := ⟨[studentC8], [⟨1, "abate", 7⟩], [], [], [], [], []⟩

/-- Student dictionary for the C7 witness. -/
def pdStudentC7 : PyDict := ⟨{1, 2}, fun _ => 3⟩

/-- Book dictionary for the C7 witness. -/
def pdBookC7 : PyDict := ⟨{2, 4}, fun _ => 7⟩

/-- Book dictionary with the same keys as `pdBookC7` but different
occurrence counts. -/
def pdBookC7v : PyDict := ⟨{2, 4}, fun _ => 9⟩

/-- Already-dismissed record for the C10 witness. -/
def svC10 : StudentVocabulary :=
  ⟨1, 1, 3, 1, some ["bad sentence"], true, some "addressed", some 5⟩

/-- Concrete database for the C10 witness: one record, already
dismissed. -/
def dbC10 : DB := ⟨[], [], [svC10], [], [], [], []⟩

/-- Dismissed record with a non-empty misuse-example list, for C5. -/
def svC5 : StudentVocabulary :=
  ⟨1, 1, 2, 0, some ["misused abate"], true, some "addressed", some 1⟩

/-- The same record before dismissal, for C5. -/
def svC5live : StudentVocabulary :=
  ⟨1, 1, 2, 0, some ["misused abate"], false, none, none⟩

/-- Concrete student for C5. -/
def studentC5 : Student := ⟨1, "s", 7, 7⟩

/-- Concrete database for C5: one student, one grade-7 word, one
dismissed misuse record. -/
def dbC5 : DB := ⟨[studentC5], [⟨1, "abate", 7⟩], [svC5], [], [], [], []⟩

/-- The C5 database with the record not dismissed. -/
def dbC5live : DB :=
  ⟨[studentC5], [⟨1, "abate", 7⟩], [svC5live], [], [], [], []⟩

/-- Concrete student for C6. -/
def studentC6 : Student := ⟨1, "s", 7, 7⟩

/-- Concrete database for C6: one student with no usage records, one
grade-7 word that the hash oracle places in the student's baseline. -/
def dbC6 : DB := ⟨[studentC6], [⟨1, "abate", 7⟩], [], [], [], [], []⟩

/-- Proof-layer abbreviation (not part of the source): the book ids of
the persisted recommendation rows belonging to one student, in table
order. -/
def pairsFor (s : ℕ) (recs : List StudentRecommendation) : List ℕ :=
  (recs.filter (fun r => r.student_id = s)).map (fun r => r.book_id)

/-- Concrete student for C9. -/
def studentC9 : Student := ⟨1, "s", 7, 7⟩

/-- The C9 database with no pre-existing recommendation rows, for the
witness of the amended claim. -/
def dbC9fresh : DB :=
  ⟨[studentC9], [], [],
    [⟨1, "b1", none, 0⟩, ⟨2, "b2", none, 0⟩, ⟨3, "b3", none, 0⟩,
      ⟨4, "b4", none, 0⟩],
    [⟨1, 101, 1⟩, ⟨2, 102, 1⟩, ⟨3, 103, 1⟩, ⟨4, 104, 1⟩],
    [], []⟩

/-- Concrete database for the C9 counterexample: one student, four
scoreable books (each with one vocabulary word), and one stale
recommendation row (student 1, book 4) left over from an earlier run. -/
def dbC9stale : DB :=
  ⟨[studentC9], [], [],
    [⟨1, "b1", none, 0⟩, ⟨2, "b2", none, 0⟩, ⟨3, "b3", none, 0⟩,
      ⟨4, "b4", none, 0⟩],
    [⟨1, 101, 1⟩, ⟨2, 102, 1⟩, ⟨3, 103, 1⟩, ⟨4, 104, 1⟩],
    [⟨1, 4, 0.5, 0, 0⟩], []⟩

/- ===========================================================
   Claims C1 and C3
   =========================================================== -/

/-- C1: for every `known_percent` (any rational, clamped internally),
every `new_words_count ≥ 0`, every student reading level and every book
reading level (present or absent), `calculate_match_score` returns a
value in [0, 1]. -/
theorem C1_match_score_bounded (known_percent : ℚ) (new_words_count : ℕ)
    (book_reading_level : Option ℚ) (student_reading_level : ℚ) :
    0 ≤ calculate_match_score known_percent new_words_count
        book_reading_level student_reading_level
    ∧ calculate_match_score known_percent new_words_count
        book_reading_level student_reading_level ≤ 1 := by
  unfold calculate_match_score
  constructor
  · exact le_max_left 0 _
  · exact max_le (by norm_num) (min_le_left 1 _)

/-- C3: at `known_percent = 0.625`, `new_words_count = 30`, book reading
level 7.0 and student reading level 7.0, the sub-scores are
known-score = 1.0, new-words-score = 0.925, reading-level-score = 1.0,
the penalty is 0, and the overall match score is exactly
0.4 × 1.0 + 0.4 × 0.925 + 0.2 × 1.0 = 0.97. -/
theorem C3_example_score :
    known_score 0.625 = 1.0
    ∧ new_words_score 30 = 0.925
    ∧ reading_level_score (some 7.0) 7.0 = 1.0
    ∧ extremity_penalty 0.625 = 0
    ∧ calculate_match_score 0.625 30 (some 7.0) 7.0
        = 0.4 * 1.0 + 0.4 * 0.925 + 0.2 * 1.0 := by
  refine ⟨?_, ?_, ?_, ?_, ?_⟩ <;>
    norm_num [known_score, new_words_score, reading_level_score,
      extremity_penalty, calculate_match_score]

/- ===========================================================
   Claims C2 and C8
   =========================================================== -/

/-- C2 (refuting the claim as a property of the code): the baseline
inclusion decision `hash(f"(student_id)_(word_id)") % 100 <
baseline_percent * 100` depends on the process's string-hash salt, not
only on (student_id, word_id, baseline_percent): CPython salts `hash` on
strings per process (PYTHONHASHSEED), so two process runs are two
different hash oracles. Exhibited here with two oracles that hash the
same key to 0 and to 50: at baseline_percent = 1/2 the first run
includes word 1 for student 1 and the second excludes it, at the level
of the raw decision and of the resulting baseline set. -/
theorem C2_baseline_not_process_stable :
    baselineIncluded (fun _ => 0) 1 1 (1/2) = true
    ∧ baselineIncluded (fun _ => 50) 1 1 (1/2) = false
    ∧ _calculate_baseline_words_known (fun _ => 0) 1 [⟨1, "abate", 7⟩]
        (1/2) = {1}
    ∧ _calculate_baseline_words_known (fun _ => 50) 1 [⟨1, "abate", 7⟩]
        (1/2) = ∅ := by
  refine ⟨?_, ?_, ?_, ?_⟩ <;>
    norm_num [baselineIncluded, _calculate_baseline_words_known]

/-- C8: for every student, when the assigned grade has no vocabulary
words the mastery percent is 0 (no division-by-zero); otherwise it is
min(100, 100 × |known set| / total grade words) where the known set is
the union of the baseline-by-hash words and the correctly-used words. -/
theorem C8_mastery_consistency (h : String → ℤ) (student : Student)
    (db : DB) :
    ((db.vocabulary_words.filter
        (fun w => w.grade_level = student.assigned_grade)).length = 0 →
      calculate_vocab_mastery_percent h student db = 0)
    ∧ ((db.vocabulary_words.filter
        (fun w => w.grade_level = student.assigned_grade)).length ≠ 0 →
      calculate_vocab_mastery_percent h student db =
        min 100 (100 * ((_calculate_baseline_words_known h student.id
            (db.vocabulary_words.filter
              (fun w => w.grade_level = student.assigned_grade))
            (_get_baseline_mastery_percent
              (pyRound student.actual_reading_level))
          ∪ ((db.student_vocabulary.filter (fun sv =>
              sv.student_id = student.id ∧ 0 < sv.correct_usage_count)).map
              (fun sv => sv.word_id)).toFinset).card : ℚ) /
          (db.vocabulary_words.filter
            (fun w => w.grade_level = student.assigned_grade)).length)) := by
  constructor
  · intro h0
    simp only [calculate_vocab_mastery_percent, h0, if_pos]
    norm_num
  · intro h0
    simp only [calculate_vocab_mastery_percent, if_neg h0]
    congr 1 <;> ring

/-- Witness for C8: the non-zero branch applied to a concrete database. -/
theorem C8_mastery_consistency_witness :
    ((dbC8.vocabulary_words.filter
        (fun w => w.grade_level = studentC8.assigned_grade)).length ≠ 0)
    ∧ calculate_vocab_mastery_percent hashZero studentC8 dbC8 =
        min 100 (100 * ((_calculate_baseline_words_known hashZero studentC8.id
            (dbC8.vocabulary_words.filter
              (fun w => w.grade_level = studentC8.assigned_grade))
            (_get_baseline_mastery_percent
              (pyRound studentC8.actual_reading_level))
          ∪ ((dbC8.student_vocabulary.filter (fun sv =>
              sv.student_id = studentC8.id ∧ 0 < sv.correct_usage_count)).map
              (fun sv => sv.word_id)).toFinset).card : ℚ) /
          (dbC8.vocabulary_words.filter
            (fun w => w.grade_level = studentC8.assigned_grade)).length) :=
  ⟨by norm_num [dbC8, studentC8],
    (C8_mastery_consistency hashZero studentC8 dbC8).2
      (by norm_num [dbC8, studentC8])⟩

/- ===========================================================
   Claims C7 and C10
   =========================================================== -/

/-- C7: the overlap calculator returns known_words = book keys ∩ student
keys, new_words = book keys minus student keys, known_percent =
|known| / |book keys| (0.0 for an empty book dictionary), and its result
depends only on the two key sets, never on the stored occurrence or
usage counts. -/
theorem C7_overlap_pure_sets (student_vocab book_vocab : PyDict) :
    (calculate_vocabulary_overlap student_vocab book_vocab).1 =
      book_vocab.keys ∩ student_vocab.keys
    ∧ (calculate_vocabulary_overlap student_vocab book_vocab).2.1 =
      book_vocab.keys \ student_vocab.keys
    ∧ (book_vocab.keys = ∅ →
        (calculate_vocabulary_overlap student_vocab book_vocab).2.2 = 0)
    ∧ (book_vocab.keys ≠ ∅ →
        (calculate_vocabulary_overlap student_vocab book_vocab).2.2 =
          ((book_vocab.keys ∩ student_vocab.keys).card : ℚ) /
            book_vocab.keys.card)
    ∧ (∀ sv2 bv2 : PyDict, sv2.keys = student_vocab.keys →
        bv2.keys = book_vocab.keys →
        calculate_vocabulary_overlap sv2 bv2 =
          calculate_vocabulary_overlap student_vocab book_vocab) := by
  refine ⟨rfl, rfl, ?_, ?_, ?_⟩
  · intro hempty
    simp only [calculate_vocabulary_overlap, hempty]
    norm_num
  · intro hne
    have hcard : book_vocab.keys.card ≠ 0 := by
      simpa [Finset.card_eq_zero] using hne
    simp [calculate_vocabulary_overlap, hcard]
  · intro sv2 bv2 hsv hbv
    simp only [calculate_vocabulary_overlap, hsv, hbv]

/-- Witness for C7: the non-empty branch and count-independence applied
to concrete dictionaries. -/
theorem C7_overlap_pure_sets_witness :
    pdBookC7.keys ≠ ∅
    ∧ (calculate_vocabulary_overlap pdStudentC7 pdBookC7).2.2 =
        ((pdBookC7.keys ∩ pdStudentC7.keys).card : ℚ) / pdBookC7.keys.card
    ∧ calculate_vocabulary_overlap pdStudentC7 pdBookC7v =
        calculate_vocabulary_overlap pdStudentC7 pdBookC7 :=
  ⟨by decide,
    (C7_overlap_pure_sets pdStudentC7 pdBookC7).2.2.2.1 (by decide),
    (C7_overlap_pure_sets pdStudentC7 pdBookC7).2.2.2.2 pdStudentC7
      pdBookC7v rfl rfl⟩

/-- Helper for C10: the matched record, with its dismissal fields set,
belongs to the updated table. -/
lemma dismissUpdateFirst_mem (student_id word_id : ℕ) (reason : String)
    (now : ℕ) :
    ∀ (l : List StudentVocabulary) (sv0 : StudentVocabulary),
      l.find? (matchesPair student_id word_id) = some sv0 →
      { sv0 with
        dismissed := true
        dismissed_reason := some reason
        dismissed_at := some now } ∈
        dismissUpdateFirst student_id word_id reason now l
  | [], sv0 => by simp [List.find?]
  | sv :: rest, sv0 => by
    intro hfind
    rw [List.find?_cons] at hfind
    by_cases hp : matchesPair student_id word_id sv = true
    · rw [hp] at hfind
      simp only [Option.some.injEq] at hfind
      subst hfind
      simp [dismissUpdateFirst, hp]
    · rw [Bool.not_eq_true] at hp
      rw [hp] at hfind
      simp only [] at hfind
      have ih := dismissUpdateFirst_mem student_id word_id reason now rest
        sv0 hfind
      simp [dismissUpdateFirst, hp, ih]

/-- C10: dismissing a (student, word) pair with no matching usage record
returns not-found and leaves the database unchanged; dismissing any
existing pair — already dismissed or not — returns the fresh timestamp
and the updated table contains the matched record with dismissed = true,
the given reason, and the fresh timestamp. -/
theorem C10_dismissal (db : DB) (student_id word_id : ℕ) (reason : String)
    (now : ℕ) :
    (db.student_vocabulary.find? (matchesPair student_id word_id) = none →
      dismiss_vocabulary_issue db student_id word_id reason now =
        (none, db))
    ∧ (∀ sv0 : StudentVocabulary,
        db.student_vocabulary.find?
          (matchesPair student_id word_id) = some sv0 →
        (dismiss_vocabulary_issue db student_id word_id reason now).1 =
          some now
        ∧ { sv0 with
            dismissed := true
            dismissed_reason := some reason
            dismissed_at := some now } ∈
          (dismiss_vocabulary_issue db student_id word_id reason
            now).2.student_vocabulary) := by
  constructor
  · intro hnone
    simp [dismiss_vocabulary_issue, hnone]
  · intro sv0 hsome
    constructor
    · simp [dismiss_vocabulary_issue, hsome]
    · simp only [dismiss_vocabulary_issue, hsome]
      exact dismissUpdateFirst_mem student_id word_id reason now
        db.student_vocabulary sv0 hsome

/-- Witness for C10: re-dismissing the already-dismissed pair (1, 1)
succeeds and refreshes the dismissal metadata. -/
theorem C10_dismissal_witness :
    (dismiss_vocabulary_issue dbC10 1 1 "ai_error" 42).1 = some 42
    ∧ { svC10 with
        dismissed := true
        dismissed_reason := some "ai_error"
        dismissed_at := some 42 } ∈
      (dismiss_vocabulary_issue dbC10 1 1 "ai_error"
        42).2.student_vocabulary :=
  (C10_dismissal dbC10 1 1 "ai_error" 42).2 svC10
    (by simp [dbC10, svC10, List.find?, matchesPair])

/- ===========================================================
   Claim C4
   =========================================================== -/

/-- The new-words sub-score always lies in [0, 1]. -/
lemma new_words_score_bounds (n : ℕ) :
    0 ≤ new_words_score n ∧ new_words_score n ≤ 1 := by
  unfold new_words_score
  by_cases h40 : n ≥ 40
  · rw [if_pos h40]; norm_num
  · rw [if_neg h40]
    have c40 : ((n : ℚ) < 40) := by exact_mod_cast Nat.lt_of_not_le h40
    by_cases h20 : n ≥ 20
    · rw [if_pos h20]
      have c20 : ((20 : ℚ) ≤ n) := by exact_mod_cast h20
      constructor <;> nlinarith
    · rw [if_neg h20]
      have c20 : ((n : ℚ) < 20) := by exact_mod_cast Nat.lt_of_not_le h20
      by_cases h10 : n ≥ 10
      · rw [if_pos h10]
        have c10 : ((10 : ℚ) ≤ n) := by exact_mod_cast h10
        constructor <;> nlinarith
      · rw [if_neg h10]
        have c10 : ((n : ℚ) < 10) := by exact_mod_cast Nat.lt_of_not_le h10
        by_cases h5 : n ≥ 5
        · rw [if_pos h5]
          have c5 : ((5 : ℚ) ≤ n) := by exact_mod_cast h5
          constructor <;> nlinarith
        · rw [if_neg h5]
          have c5 : ((n : ℚ) < 5) := by exact_mod_cast Nat.lt_of_not_le h5
          have c0 : ((0 : ℚ) ≤ n) := by positivity
          constructor <;> nlinarith

/-- The reading-level sub-score always lies in [0, 1]. -/
lemma reading_level_score_bounds (b : Option ℚ) (s : ℚ) :
    0 ≤ reading_level_score b s ∧ reading_level_score b s ≤ 1 := by
  cases b with
  | none =>
    simp only [reading_level_score]
    norm_num
  | some brl =>
    simp only [reading_level_score]
    refine ⟨le_max_left _ _, max_le (by norm_num) ?_⟩
    have h := abs_nonneg (brl - s)
    linarith

/-- On the too-easy band 0.85 ≤ kp ≤ 1 the match score collapses to a
single clamped affine expression: the else-branch known-score, the
above-band penalty, and an upper clamp that never binds there. -/
lemma match_score_upper_band (kp : ℚ) (hlo : 0.85 ≤ kp) (hhi : kp ≤ 1)
    (n : ℕ) (b : Option ℚ) (s : ℚ) :
    calculate_match_score kp n b s =
      max 0 ((1 - (kp - 0.75) * 2) * 0.4
        + new_words_score n * 0.4 + reading_level_score b s * 0.2
        - (kp - 0.85) * 3) := by
  obtain ⟨hn0, hn1⟩ := new_words_score_bounds n
  obtain ⟨hr0, hr1⟩ := reading_level_score_bounds b s
  have h1 : min 1.0 kp = kp :=
    min_eq_right (by rw [show (1.0 : ℚ) = 1 by norm_num]; exact hhi)
  have h0 : max 0.0 kp = kp :=
    max_eq_right (by rw [show (0.0 : ℚ) = 0 by norm_num]; linarith)
  unfold calculate_match_score
  rw [h1, h0]
  have hks : known_score kp = 1.0 - (kp - 0.75) / 0.10 * 0.2 := by
    unfold known_score
    rw [if_neg (by rintro ⟨hc1, hc2⟩; linarith), if_neg (by linarith)]
  have hpen : extremity_penalty kp = (kp - 0.85) * 3 := by
    unfold extremity_penalty
    rcases lt_or_eq_of_le hlo with hcase | hcase
    · rw [if_pos hcase]
    · rw [if_neg (by rw [← hcase]; exact lt_irrefl _),
        if_neg (by rw [← hcase]; norm_num), ← hcase]
      ring
  have hdiv : (kp - 0.75) / 0.10 * 0.2 = (kp - 0.75) * 2 := by
    field_simp
    ring
  rw [hks, hpen, hdiv, show (1.0 : ℚ) = 1 by norm_num]
  rw [min_eq_right (by linarith)]

/-- On the too-hard band 0 ≤ kp ≤ 0.40 the match score collapses to a
single clamped affine expression: the below-0.50 known-score, the
below-band penalty, and an upper clamp that never binds there. -/
lemma match_score_lower_band (kp : ℚ) (hlo : 0 ≤ kp) (hhi : kp ≤ 0.40)
    (n : ℕ) (b : Option ℚ) (s : ℚ) :
    calculate_match_score kp n b s =
      max 0 ((0.7 + (kp - 0.40) * 1.5) * 0.4
        + new_words_score n * 0.4 + reading_level_score b s * 0.2
        - (0.40 - kp) * 3) := by
  obtain ⟨hn0, hn1⟩ := new_words_score_bounds n
  obtain ⟨hr0, hr1⟩ := reading_level_score_bounds b s
  have h1 : min 1.0 kp = kp :=
    min_eq_right (by rw [show (1.0 : ℚ) = 1 by norm_num]; linarith)
  have h0 : max 0.0 kp = kp :=
    max_eq_right (by rw [show (0.0 : ℚ) = 0 by norm_num]; exact hlo)
  unfold calculate_match_score
  rw [h1, h0]
  have hks : known_score kp = 0.7 + (kp - 0.40) / 0.10 * 0.15 := by
    unfold known_score
    rw [if_neg (by rintro ⟨hc1, hc2⟩; linarith), if_pos (by linarith)]
  have hpen : extremity_penalty kp = (0.40 - kp) * 3 := by
    unfold extremity_penalty
    rcases lt_or_eq_of_le hhi with hcase | hcase
    · rw [if_neg (by linarith), if_pos hcase]
    · rw [if_neg (by linarith), if_neg (by rw [hcase]; exact lt_irrefl _),
        hcase]
      ring
  have hdiv : (kp - 0.40) / 0.10 * 0.15 = (kp - 0.40) * 1.5 := by
    field_simp
    ring
  rw [hks, hpen, hdiv]
  rw [min_eq_right (by linarith)]

/-- The new-words sub-score of zero new words is zero. -/
lemma new_words_score_zero : new_words_score 0 = 0 := by
  norm_num [new_words_score]

/-- With book level 7 and student level 3 the reading-level sub-score
bottoms out at zero. -/
lemma reading_level_score_far : reading_level_score (some 7) 3 = 0 := by
  simp only [reading_level_score]
  rw [show |(7 : ℚ) - 3| = 4 by
    rw [show ((7 : ℚ) - 3) = 4 by norm_num]
    exact abs_of_nonneg (by norm_num)]
  norm_num

/-- C4 counterexample: the claim that the match score strictly decreases
as known_percent moves from 0.85 toward 1.0 for every fixed
new_words_count and fixed reading levels is false: with 0 new words,
book level 7 and student level 3, the score is already clamped to 0 at
known_percent = 0.95 and stays 0 at 0.99, so 0.95 < 0.99 gives no
strict decrease. -/
theorem C4_counterexample_clamped_tail :
    ¬ (∀ (n : ℕ) (b : Option ℚ) (s : ℚ) (p q : ℚ),
        0.85 ≤ p → p < q → q ≤ 1 →
        calculate_match_score q n b s < calculate_match_score p n b s) := by
  intro hclaim
  have h1 : calculate_match_score 0.95 0 (some 7) 3 = 0 := by
    rw [match_score_upper_band 0.95 (by norm_num) (by norm_num),
      new_words_score_zero, reading_level_score_far]
    rw [max_eq_left (by norm_num)]
  have h2 : calculate_match_score 0.99 0 (some 7) 3 = 0 := by
    rw [match_score_upper_band 0.99 (by norm_num) (by norm_num),
      new_words_score_zero, reading_level_score_far]
    rw [max_eq_left (by norm_num)]
  have h3 := hclaim 0 (some 7) 3 0.95 0.99 (by norm_num) (by norm_num)
    (by norm_num)
  rw [h1, h2] at h3
  exact lt_irrefl 0 h3

/-- C4 as amended: (a) for every fixed new_words_count and reading
levels, the score at known_percent = 0.95 is strictly below the score at
0.85; (b) moving from 0.85 toward 1.0 the score is non-increasing, and
strictly decreasing as long as the score at the nearer point is still
positive; (c) symmetrically moving from 0.40 toward 0.0. The claim's
unconditional strictness fails only where the final clamp has already
driven the score to 0. -/
theorem C4_amended_monotone_penalty :
    (∀ (n : ℕ) (b : Option ℚ) (s : ℚ),
      calculate_match_score 0.95 n b s < calculate_match_score 0.85 n b s)
    ∧ (∀ (n : ℕ) (b : Option ℚ) (s : ℚ) (p q : ℚ),
        0.85 ≤ p → p < q → q ≤ 1 →
        calculate_match_score q n b s ≤ calculate_match_score p n b s
        ∧ (0 < calculate_match_score p n b s →
            calculate_match_score q n b s < calculate_match_score p n b s))
    ∧ (∀ (n : ℕ) (b : Option ℚ) (s : ℚ) (p q : ℚ),
        0 ≤ q → q < p → p ≤ 0.40 →
        calculate_match_score q n b s ≤ calculate_match_score p n b s
        ∧ (0 < calculate_match_score p n b s →
            calculate_match_score q n b s < calculate_match_score p n b s)) := by
  refine ⟨?_, ?_, ?_⟩
  · intro n b s
    obtain ⟨hn0, hn1⟩ := new_words_score_bounds n
    obtain ⟨hr0, hr1⟩ := reading_level_score_bounds b s
    rw [match_score_upper_band 0.95 (by norm_num) (by norm_num),
      match_score_upper_band 0.85 (by norm_num) (by norm_num)]
    refine lt_of_lt_of_le (max_lt ?_ ?_) (le_max_right 0 _)
    · linarith
    · linarith
  · intro n b s p q hp hpq hq
    rw [match_score_upper_band p hp (by linarith),
      match_score_upper_band q (by linarith) hq]
    constructor
    · exact max_le_max le_rfl (by linarith)
    · intro hpos
      have hA : 0 < (1 - (p - 0.75) * 2) * 0.4
          + new_words_score n * 0.4 + reading_level_score b s * 0.2
          - (p - 0.85) * 3 := by
        rcases lt_max_iff.mp hpos with hcase | hcase
        · exact absurd hcase (lt_irrefl 0)
        · exact hcase
      refine lt_of_lt_of_le (max_lt hA ?_) (le_max_right 0 _)
      linarith
  · intro n b s p q hq hqp hp
    rw [match_score_lower_band p (by linarith) hp,
      match_score_lower_band q hq (by linarith)]
    constructor
    · exact max_le_max le_rfl (by linarith)
    · intro hpos
      have hA : 0 < (0.7 + (p - 0.40) * 1.5) * 0.4
          + new_words_score n * 0.4 + reading_level_score b s * 0.2
          - (0.40 - p) * 3 := by
        rcases lt_max_iff.mp hpos with hcase | hcase
        · exact absurd hcase (lt_irrefl 0)
        · exact hcase
      refine lt_of_lt_of_le (max_lt hA ?_) (le_max_right 0 _)
      linarith

/-- Witness for C4 (amended): part (b) applied at p = 0.85, q = 0.95
with 30 new words and matched reading levels. -/
theorem C4_amended_monotone_penalty_witness :
    calculate_match_score 0.95 30 (some 7) 7 ≤
      calculate_match_score 0.85 30 (some 7) 7 :=
  ((C4_amended_monotone_penalty.2.1) 30 (some 7) 7 0.85 0.95 (by norm_num)
    (by norm_num) (by norm_num)).1

/- ===========================================================
   Claims C5 and C6
   =========================================================== -/

/-- C5 (refuting the claim as a property of the code): the per-student
misused listing does exclude the dismissed record, and mastery is
unaffected by the dismissal — but the class-wide misuse aggregation of
`get_class_stats` never consults the `dismissed` flag: the dismissed
record still contributes 1 to the per-word misuse counter and to the
reported `total_misuse_count`, contradicting the claim that dismissed
records are excluded from the class-wide top-10 aggregation. -/
theorem C5_dismissed_counted_in_class_aggregation :
    get_misused_words studentC5 dbC5 = []
    ∧ class_word_misuse_count dbC5 1 = 1
    ∧ total_misuse_count dbC5 1 = 1
    ∧ calculate_vocab_mastery_percent hashZero studentC5 dbC5 =
        calculate_vocab_mastery_percent hashZero studentC5 dbC5live := by
  refine ⟨?_, ?_, ?_, ?_⟩ <;>
    norm_num [get_misused_words, class_word_misuse_count,
      total_misuse_count, misuseNonempty, calculate_vocab_mastery_percent,
      _calculate_baseline_words_known, baselineIncluded,
      _get_baseline_mastery_percent, pyRound, hashZero,
      dbC5, dbC5live, svC5, svC5live, studentC5]

/-- C6 (refuting the claim as a property of the code): the per-student
missing-word list of `student_service.get_missing_words` treats word 1
as known (it is in the baseline-by-hash set), yet the class-wide missing
counter of `get_class_stats` counts it as missing for the same student,
because that counter only consults `correct_usage_count > 0` and ignores
the baseline entirely (it does not even take the hash oracle as an
input), contradicting the claim that both computations use exactly the
profile builder's known-set logic. -/
theorem C6_class_missing_ignores_baseline :
    get_missing_words hashZero studentC6 dbC6 = []
    ∧ class_word_missing_count dbC6 1 = 1 := by
  constructor <;>
    norm_num [get_missing_words, class_word_missing_count,
      _calculate_baseline_words_known, baselineIncluded,
      _get_baseline_mastery_percent, pyRound, hashZero,
      dbC6, studentC6]

/- ===========================================================
   Claim C9
   =========================================================== -/

set_option maxHeartbeats 2000000 in
/-- C9 counterexample: with a stale recommendation row from an earlier
run, a full engine run leaves a student with 4 persisted rows even
though every student has at least 3 scoreable books: the engine upserts
the new top-3 but never prunes rows that dropped out of the top 3, so
"exactly 3 persisted rows after a full run" is false as stated. -/
theorem C9_counterexample_stale_rows :
    3 ≤ (dbC9stale.books.filter (fun b =>
      ¬ (get_book_vocabulary dbC9stale b.id).keys = ∅)).length
    ∧ ((run_recommendation_engine hashZero
        dbC9stale).student_recommendations.filter
        (fun r => r.student_id = 1)).length = 4 := by
  constructor
  · decide
  · have hprof : (get_student_vocabulary_profile hashZero dbC9stale 1).keys
        = ∅ := by
      norm_num [get_student_vocabulary_profile, dbC9stale, studentC9,
        List.find?]
    have hscore : calculate_match_score 0 1 none 7 = 0 := by
      norm_num [calculate_match_score, known_score, new_words_score,
        reading_level_score, extremity_penalty]
    have hd1 : book_match_entry hashZero dbC9stale studentC9
        ⟨1, "b1", none, 0⟩ = (⟨1, "b1", none, 0⟩, 0, 0, 1) := by
      simp only [book_match_entry, book_match_data,
        calculate_vocabulary_overlap, hprof, studentC9]
      norm_num [get_book_vocabulary, dbC9stale, hscore]
    have hd2 : book_match_entry hashZero dbC9stale studentC9
        ⟨2, "b2", none, 0⟩ = (⟨2, "b2", none, 0⟩, 0, 0, 1) := by
      simp only [book_match_entry, book_match_data,
        calculate_vocabulary_overlap, hprof, studentC9]
      norm_num [get_book_vocabulary, dbC9stale, hscore]
    have hd3 : book_match_entry hashZero dbC9stale studentC9
        ⟨3, "b3", none, 0⟩ = (⟨3, "b3", none, 0⟩, 0, 0, 1) := by
      simp only [book_match_entry, book_match_data,
        calculate_vocabulary_overlap, hprof, studentC9]
      norm_num [get_book_vocabulary, dbC9stale, hscore]
    have hd4 : book_match_entry hashZero dbC9stale studentC9
        ⟨4, "b4", none, 0⟩ = (⟨4, "b4", none, 0⟩, 0, 0, 1) := by
      simp only [book_match_entry, book_match_data,
        calculate_vocabulary_overlap, hprof, studentC9]
      norm_num [get_book_vocabulary, dbC9stale, hscore]
    have hbooks : dbC9stale.books = [⟨1, "b1", none, 0⟩, ⟨2, "b2", none, 0⟩,
        ⟨3, "b3", none, 0⟩, ⟨4, "b4", none, 0⟩] := rfl
    have hc1 : ¬ ((get_book_vocabulary dbC9stale 1).keys = ∅) := by decide
    have hc2 : ¬ ((get_book_vocabulary dbC9stale 2).keys = ∅) := by decide
    have hc3 : ¬ ((get_book_vocabulary dbC9stale 3).keys = ∅) := by decide
    have hc4 : ¬ ((get_book_vocabulary dbC9stale 4).keys = ∅) := by decide
    have hmatches : match_student_to_books hashZero dbC9stale studentC9
        dbC9stale.books =
        [(⟨1, "b1", none, 0⟩, 0, 0, 1), (⟨2, "b2", none, 0⟩, 0, 0, 1),
          (⟨3, "b3", none, 0⟩, 0, 0, 1), (⟨4, "b4", none, 0⟩, 0, 0, 1)] := by
      simp only [match_student_to_books, hbooks, List.filterMap_cons,
        List.filterMap_nil, hc1, hc2, hc3, hc4, if_false, hd1, hd2, hd3,
        hd4]
      norm_num [List.insertionSort, List.orderedInsert]
    have hgsm : generate_student_matches hashZero dbC9stale =
        [(1, [(⟨1, "b1", none, 0⟩, 0, 0, 1), (⟨2, "b2", none, 0⟩, 0, 0, 1),
          (⟨3, "b3", none, 0⟩, 0, 0, 1)])] := by
      have hstudents : dbC9stale.students = [studentC9] := rfl
      simp only [generate_student_matches, hstudents, List.filterMap_cons,
        List.filterMap_nil, hmatches]
      norm_num [studentC9]
    have hinit : dbC9stale.student_recommendations =
        [⟨1, 4, 0.5, 0, 0⟩] := rfl
    have hsrecs : (run_recommendation_engine hashZero
        dbC9stale).student_recommendations =
        [⟨1, 4, 0.5, 0, 0⟩, ⟨1, 1, 0, 0, 1⟩, ⟨1, 2, 0, 0, 1⟩,
          ⟨1, 3, 0, 0, 1⟩] := by
      simp only [run_recommendation_engine]
      rw [hgsm, hinit]
      norm_num [store_student_recommendations, store_student_rec_one,
        upsert_student_rec]
    rw [hsrecs]
    decide

/-- A filterMap whose function returns none exactly on a predicate is a
map over the complementary filter. -/
lemma filterMap_ite {α β : Type} (c : α → Prop) [DecidablePred c]
    (g : α → β) (l : List α) :
    (l.filterMap (fun a => if c a then none else some (g a))) =
      (l.filter (fun a => ¬ c a)).map g := by
  induction l with
  | nil => rfl
  | cons a t ih =>
    by_cases hc : c a
    · simp [List.filterMap_cons, List.filter_cons, hc, ih]
    · simp [List.filterMap_cons, List.filter_cons, hc, ih]

/-- The sorted matches list is a permutation of one entry per scoreable
book. -/
lemma match_student_to_books_perm (h : String → ℤ) (db : DB)
    (student : Student) :
    (match_student_to_books h db student db.books).Perm
      ((db.books.filter (fun b =>
        ¬ (get_book_vocabulary db b.id).keys = ∅)).map
        (book_match_entry h db student)) := by
  unfold match_student_to_books
  rw [filterMap_ite (fun book => (get_book_vocabulary db book.id).keys = ∅)
    (book_match_entry h db student) db.books]
  exact List.perm_insertionSort _ _

/-- The matches list has exactly one entry per scoreable book. -/
lemma match_student_to_books_length (h : String → ℤ) (db : DB)
    (student : Student) :
    (match_student_to_books h db student db.books).length =
      (db.books.filter (fun b =>
        ¬ (get_book_vocabulary db b.id).keys = ∅)).length := by
  rw [(match_student_to_books_perm h db student).length_eq,
    List.length_map]

/-- With distinct book ids in the table, the matches list carries
distinct book ids. -/
lemma match_student_to_books_ids_nodup (h : String → ℤ) (db : DB)
    (student : Student)
    (hbooks : (db.books.map (fun b => b.id)).Nodup) :
    ((match_student_to_books h db student db.books).map
      (fun e => e.1.id)).Nodup := by
  have hperm := (match_student_to_books_perm h db student).map
    (fun e => e.1.id)
  rw [List.Perm.nodup_iff hperm, List.map_map]
  have hcomp : ((fun e => e.1.id) ∘ book_match_entry h db student) =
      fun b => b.id := rfl
  rw [hcomp]
  exact List.Nodup.sublist
    ((List.filter_sublist db.books).map (fun b => b.id)) hbooks

/-- The top-3 prefix of the matches list carries distinct book ids. -/
lemma take3_ids_nodup (h : String → ℤ) (db : DB) (student : Student)
    (hbooks : (db.books.map (fun b => b.id)).Nodup) :
    (((match_student_to_books h db student db.books).take 3).map
      (fun m => m.1.id)).Nodup := by
  rw [List.map_take]
  exact List.Nodup.sublist (List.take_sublist 3 _)
    (match_student_to_books_ids_nodup h db student hbooks)

/-- An upsert whose (student, book) pair is absent appends the row. -/
lemma upsert_student_rec_append (r : StudentRecommendation) :
    ∀ recs : List StudentRecommendation,
      (∀ e ∈ recs,
        ¬ (e.student_id = r.student_id ∧ e.book_id = r.book_id)) →
      upsert_student_rec recs r = recs ++ [r]
  | [], _ => rfl
  | e :: rest, hnone => by
    simp only [upsert_student_rec,
      if_neg (hnone e (List.mem_cons_self e rest))]
    rw [upsert_student_rec_append r rest
      (fun x hx => hnone x (List.mem_cons_of_mem e hx))]
    rfl

/-- Upserting a row of another student leaves a student's rows
untouched. -/
lemma upsert_student_rec_filter_other (r : StudentRecommendation) (s : ℕ)
    (hne : ¬ r.student_id = s) :
    ∀ recs : List StudentRecommendation,
      (upsert_student_rec recs r).filter (fun x => x.student_id = s) =
        recs.filter (fun x => x.student_id = s)
  | [] => by simp [upsert_student_rec, hne]
  | e :: rest => by
    by_cases hm : e.student_id = r.student_id ∧ e.book_id = r.book_id
    · simp only [upsert_student_rec, if_pos hm, List.filter_cons]
      have he : ¬ e.student_id = s := by rw [hm.1]; exact hne
      simp [hne, he]
    · simp only [upsert_student_rec, if_neg hm, List.filter_cons]
      by_cases he : e.student_id = s
      · simp [he, upsert_student_rec_filter_other r s hne rest]
      · simp [he, upsert_student_rec_filter_other r s hne rest]

/-- Appending one of the student's own rows appends its book id to the
student's pair list. -/
lemma pairsFor_append_own (s : ℕ) (acc : List StudentRecommendation)
    (r : StudentRecommendation) (hr : r.student_id = s) :
    pairsFor s (acc ++ [r]) = pairsFor s acc ++ [r.book_id] := by
  simp [pairsFor, List.filter_append, hr]

/-- A stored row of the student contributes its book id to the pair
list. -/
lemma mem_pairsFor (s : ℕ) (acc : List StudentRecommendation)
    (e : StudentRecommendation) (he : e ∈ acc)
    (hs : e.student_id = s) : e.book_id ∈ pairsFor s acc := by
  simp only [pairsFor, List.mem_map]
  exact ⟨e, List.mem_filter.mpr ⟨he, by simp [hs]⟩, rfl⟩

/-- Storing one student's top-3 list appends exactly its book ids to the
student's pair list, provided those ids are fresh and distinct. -/
lemma pairsFor_store_one (sid : ℕ) :
    ∀ (l : List (Book × ℚ × ℚ × ℕ)) (acc : List StudentRecommendation),
      (∀ b, b ∈ l.map (fun m => m.1.id) → ¬ b ∈ pairsFor sid acc) →
      (l.map (fun m => m.1.id)).Nodup →
      pairsFor sid (store_student_rec_one sid acc l) =
        pairsFor sid acc ++ l.map (fun m => m.1.id)
  | [], acc, _, _ => by simp [store_student_rec_one]
  | m :: rest, acc, hdisj, hnd => by
    have hb : ¬ m.1.id ∈ pairsFor sid acc := hdisj m.1.id (by simp)
    have hups : upsert_student_rec acc
        ⟨sid, m.1.id, m.2.1, m.2.2.1, m.2.2.2⟩ =
        acc ++ [⟨sid, m.1.id, m.2.1, m.2.2.1, m.2.2.2⟩] := by
      apply upsert_student_rec_append
      intro e he hme
      have hsid : e.student_id = sid := hme.1
      have hbid : e.book_id = m.1.id := hme.2
      exact hb (hbid ▸ mem_pairsFor sid acc e he hsid)
    have hstep : store_student_rec_one sid acc (m :: rest) =
        store_student_rec_one sid
          (acc ++ [⟨sid, m.1.id, m.2.1, m.2.2.1, m.2.2.2⟩]) rest := by
      simp only [store_student_rec_one, List.foldl_cons, hups]
    have hdisj2 : ∀ b, b ∈ rest.map (fun m => m.1.id) →
        ¬ b ∈ pairsFor sid
          (acc ++ [⟨sid, m.1.id, m.2.1, m.2.2.1, m.2.2.2⟩]) := by
      intro b hbmem
      rw [pairsFor_append_own sid acc _ rfl]
      simp only [List.mem_append, List.mem_singleton]
      rintro (hin | hbeq)
      · exact hdisj b (by simp [hbmem]) hin
      · rw [List.map_cons, List.nodup_cons] at hnd
        exact hnd.1 (hbeq ▸ hbmem)
    have hnd2 : (rest.map (fun m => m.1.id)).Nodup := by
      rw [List.map_cons, List.nodup_cons] at hnd
      exact hnd.2
    rw [hstep, pairsFor_store_one sid rest _ hdisj2 hnd2,
      pairsFor_append_own sid acc _ rfl]
    simp

/-- Storing another student's top-3 list leaves a student's rows
untouched. -/
lemma store_one_filter_other (sid s : ℕ) (hne : ¬ sid = s) :
    ∀ (l : List (Book × ℚ × ℚ × ℕ)) (acc : List StudentRecommendation),
      (store_student_rec_one sid acc l).filter
        (fun x => x.student_id = s) =
        acc.filter (fun x => x.student_id = s)
  | [], _ => rfl
  | m :: rest, acc => by
    have hstep : store_student_rec_one sid acc (m :: rest) =
        store_student_rec_one sid
          (upsert_student_rec acc ⟨sid, m.1.id, m.2.1, m.2.2.1, m.2.2.2⟩)
          rest := by
      simp only [store_student_rec_one, List.foldl_cons]
    rw [hstep, store_one_filter_other sid s hne rest _,
      upsert_student_rec_filter_other _ s hne acc]

/-- The whole storage phase leaves a student's rows untouched when no
entry belongs to that student. -/
lemma store_filter_no_entry (s : ℕ) :
    ∀ (ms : List (ℕ × List (Book × ℚ × ℚ × ℕ)))
      (acc : List StudentRecommendation),
      (∀ e ∈ ms, ¬ e.1 = s) →
      (store_student_recommendations acc ms).filter
        (fun x => x.student_id = s) =
        acc.filter (fun x => x.student_id = s)
  | [], _, _ => rfl
  | e :: rest, acc, hno => by
    have hstep : store_student_recommendations acc (e :: rest) =
        store_student_recommendations
          (store_student_rec_one e.1 acc e.2) rest := by
      simp only [store_student_recommendations, List.foldl_cons]
    rw [hstep,
      store_filter_no_entry s rest _
        (fun x hx => hno x (List.mem_cons_of_mem e hx)),
      store_one_filter_other e.1 s (hno e (List.mem_cons_self e rest))
        e.2 acc]

/-- After the whole storage phase starting with no rows for the student,
the student's pair list is exactly the book ids of their stored top-3
entry. -/
lemma pairsFor_store_all (s : ℕ) :
    ∀ (ms : List (ℕ × List (Book × ℚ × ℚ × ℕ)))
      (acc : List StudentRecommendation)
      (top3 : List (Book × ℚ × ℚ × ℕ)),
      (ms.map Prod.fst).Nodup →
      (s, top3) ∈ ms →
      pairsFor s acc = [] →
      (top3.map (fun m => m.1.id)).Nodup →
      pairsFor s (store_student_recommendations acc ms) =
        top3.map (fun m => m.1.id)
  | [], _, _, _, hmem, _, _ => absurd hmem (List.not_mem_nil _)
  | e :: rest, acc, top3, hnd, hmem, hacc, htnd => by
    have hstep : store_student_recommendations acc (e :: rest) =
        store_student_recommendations
          (store_student_rec_one e.1 acc e.2) rest := by
      simp only [store_student_recommendations, List.foldl_cons]
    rw [List.map_cons, List.nodup_cons] at hnd
    rcases List.mem_cons.mp hmem with heq | hmemrest
    · have he1 : e.1 = s := by rw [← heq]
      have he2 : e.2 = top3 := by rw [← heq]
      have hacc' : pairsFor s (store_student_rec_one e.1 acc e.2) =
          top3.map (fun m => m.1.id) := by
        rw [he1, he2, pairsFor_store_one s top3 acc
          (fun b _ => by rw [hacc]; exact List.not_mem_nil b) htnd,
          hacc, List.nil_append]
      have hrest : ∀ x ∈ rest, ¬ x.1 = s := by
        intro x hx hxs
        apply hnd.1
        rw [he1, ← hxs]
        exact List.mem_map.mpr ⟨x, hx, rfl⟩
      rw [hstep]
      simp only [pairsFor] at hacc' ⊢
      rw [store_filter_no_entry s rest _ hrest]
      exact hacc'
    · have hne : ¬ e.1 = s := by
        intro hthis
        apply hnd.1
        rw [hthis]
        exact List.mem_map.mpr ⟨(s, top3), hmemrest, rfl⟩
      have hacc2 : pairsFor s (store_student_rec_one e.1 acc e.2) = [] := by
        simp only [pairsFor] at hacc ⊢
        rw [store_one_filter_other e.1 s hne e.2 acc]
        exact hacc
      rw [hstep]
      exact pairsFor_store_all s rest _ top3 hnd.2 hmemrest hacc2 htnd

/-- One class upsert grows the table by at most one row. -/
lemma upsert_class_rec_length (r : ClassRecommendation) :
    ∀ recs : List ClassRecommendation,
      (upsert_class_rec recs r).length ≤ recs.length + 1
  | [] => by simp [upsert_class_rec]
  | e :: rest => by
    by_cases hm : e.book_id = r.book_id
    · simp [upsert_class_rec, hm]
    · simp only [upsert_class_rec, if_neg hm, List.length_cons]
      have := upsert_class_rec_length r rest
      omega

/-- Storing class recommendations grows the table by at most the number
of aggregates stored. -/
lemma store_class_recommendations_length :
    ∀ (l : List BookAggregate) (acc : List ClassRecommendation),
      (store_class_recommendations acc l).length ≤ acc.length + l.length
  | [], acc => by simp [store_class_recommendations]
  | info :: rest, acc => by
    have hstep : store_class_recommendations acc (info :: rest) =
        store_class_recommendations
          (upsert_class_rec acc ⟨info.book_id, info.average_match_score,
            info.students_recommended_count⟩) rest := by
      simp only [store_class_recommendations, List.foldl_cons]
    rw [hstep]
    have h1 := store_class_recommendations_length rest
      (upsert_class_rec acc ⟨info.book_id, info.average_match_score,
        info.students_recommended_count⟩)
    have h2 := upsert_class_rec_length
      ⟨info.book_id, info.average_match_score,
        info.students_recommended_count⟩ acc
    simp only [List.length_cons]
    omega

/-- C9 as amended: starting from empty recommendation tables, after a
full engine run in which there are at least 3 scoreable books (books
with a non-empty vocabulary dictionary), and with the primary keys of
the books and students tables distinct, every student has exactly 3
persisted StudentRecommendation rows, and at most 2 ClassRecommendation
rows are persisted. Without the empty-start premise the count can exceed
3, because the engine upserts but never prunes stale rows. -/
theorem C9_amended_cardinality (h : String → ℤ) (db : DB)
    (hsempty : db.student_recommendations = [])
    (hcempty : db.class_recommendations = [])
    (hbooksnd : (db.books.map (fun b => b.id)).Nodup)
    (hstudnd : (db.students.map (fun st => st.id)).Nodup)
    (student : Student) (hmem : student ∈ db.students)
    (hscoreable : 3 ≤ (db.books.filter (fun b =>
      ¬ (get_book_vocabulary db b.id).keys = ∅)).length) :
    ((run_recommendation_engine h db).student_recommendations.filter
      (fun r => r.student_id = student.id)).length = 3
    ∧ (run_recommendation_engine h db).class_recommendations.length ≤ 2 := by
  have hsrecs : (run_recommendation_engine h db).student_recommendations =
      store_student_recommendations db.student_recommendations
        (generate_student_matches h db) := rfl
  have hcrecs : (run_recommendation_engine h db).class_recommendations =
      store_class_recommendations db.class_recommendations
        (generate_class_recommendations
          (store_student_recommendations db.student_recommendations
            (generate_student_matches h db))) := rfl
  constructor
  · have hlen3 : 3 ≤ (match_student_to_books h db student db.books).length := by
      rw [match_student_to_books_length h db student]
      exact hscoreable
    have hnonempty :
        ¬ (match_student_to_books h db student db.books).isEmpty = true := by
      rw [List.isEmpty_iff]
      intro hnil
      rw [hnil] at hlen3
      simp at hlen3
    have hentry : (student.id,
        (match_student_to_books h db student db.books).take 3) ∈
        generate_student_matches h db := by
      unfold generate_student_matches
      exact List.mem_filterMap.mpr ⟨student, hmem, by rw [if_neg hnonempty]⟩
    have hfstnd : ((generate_student_matches h db).map Prod.fst).Nodup := by
      unfold generate_student_matches
      rw [filterMap_ite (fun st =>
          (match_student_to_books h db st db.books).isEmpty = true)
        (fun st => (st.id,
          (match_student_to_books h db st db.books).take 3)) db.students,
        List.map_map]
      have hcomp : (Prod.fst ∘ fun st => ((st.id : ℕ),
          (match_student_to_books h db st db.books).take 3)) =
          fun st => st.id := rfl
      rw [hcomp]
      exact List.Nodup.sublist
        ((List.filter_sublist db.students).map (fun st => st.id)) hstudnd
    have hkey := pairsFor_store_all student.id
      (generate_student_matches h db) db.student_recommendations
      ((match_student_to_books h db student db.books).take 3)
      hfstnd hentry (by rw [hsempty]; rfl)
      (take3_ids_nodup h db student hbooksnd)
    rw [hsrecs]
    have hplen : ((store_student_recommendations db.student_recommendations
        (generate_student_matches h db)).filter
        (fun r => r.student_id = student.id)).length =
        (pairsFor student.id (store_student_recommendations
          db.student_recommendations
          (generate_student_matches h db))).length := by
      simp [pairsFor]
    rw [hplen, hkey, List.length_map, List.length_take]
    exact Nat.min_eq_left hlen3
  · rw [hcrecs, hcempty]
    have h1 := store_class_recommendations_length
      (generate_class_recommendations
        (store_student_recommendations db.student_recommendations
          (generate_student_matches h db))) []
    have h2 : (generate_class_recommendations
        (store_student_recommendations db.student_recommendations
          (generate_student_matches h db))).length ≤ 2 := by
      unfold generate_class_recommendations
      exact List.length_take_le 2 _
    simp only [List.length_nil] at h1
    omega

/-- Witness for C9 (amended): a fresh database with one student and four
scoreable books ends the run with exactly 3 rows for the student and at
most 2 class rows. -/
theorem C9_amended_cardinality_witness :
    ((run_recommendation_engine hashZero
      dbC9fresh).student_recommendations.filter
      (fun r => r.student_id = studentC9.id)).length = 3
    ∧ (run_recommendation_engine hashZero
      dbC9fresh).class_recommendations.length ≤ 2 :=
  C9_amended_cardinality hashZero dbC9fresh rfl rfl (by decide) (by decide)
    studentC9 (by exact List.mem_cons_self studentC9 []) (by decide)

end GutenVocab
